import Mathlib

/-!
Verification development for the ALNP SDK client orchestrator
(`src/alnp/src/sdk/client.rs`).

The orchestrator source is embedded faithfully: `AlpineClient.connect`,
`AlpineClient.send_frame`, `AlpineClient.close`, `AlpineClient.control_envelope`
and `UdpFrameTransport` mirror the Rust code line by line.  Collaborators that
live elsewhere in the repository (session state machine, control channel,
stream, transports, keepalive) are modelled from the design document; each such
definition carries a doc comment starting with "Modelled from the spec".

Effects are made explicit: OS socket outcomes and the handshake outcome are
supplied by a `ConnectEnv`, and `connect` additionally returns a `ConnectTrace`
recording which background tasks were spawned (and that none were aborted).
Socket identifiers model distinct OS socket allocations: the first bind in a
`connect` call receives id `env.sock0`, the second `env.sock0 + 1`, reflecting
that the OS never hands out the same live socket twice.
-/

/-- A network socket address (IP plus port), as in `std::net::SocketAddr`. -/
structure SocketAddr where
  ip : Nat
  port : Nat
deriving DecidableEq

/-- A UUID value, modelled abstractly by a number (the `uuid` crate is an
external collaborator). -/
structure Uuid where
  val : Nat
deriving DecidableEq

/-- Modelled from the spec: symmetric key material derived from the handshake
(SessionKeys in section 3). -/
structure SessionKeys where
  material : Nat
deriving DecidableEq

/-- Modelled from the spec: stable identifier (parsable as a UUID) plus a
descriptive field for a peer (DeviceIdentity in section 3). -/
structure DeviceIdentity where
  device_id : String
  display_name : String
deriving DecidableEq

/-- Modelled from the spec: declared feature/channel capabilities
(CapabilitySet in section 3). -/
structure CapabilitySet where
  caps : List String
deriving DecidableEq

/-- Modelled from the spec: long-term signing keypair material
(NodeCredentials in section 3); only its existence matters here. -/
structure NodeCredentials where
  signingKey : Nat
deriving DecidableEq

/-- A structured JSON-like payload value (`serde_json::Value`), modelled by a
small closed inductive. -/
inductive Value where
  | null : Value
  | num : Nat → Value
  | str : String → Value
deriving DecidableEq

/-- Modelled from the spec: closed set of control operations
(request/response verbs, ControlOp in section 3). -/
inductive ControlOp where
  | request : ControlOp
  | response : ControlOp
  | ping : ControlOp
deriving DecidableEq

/-- Data-plane channel format tag carried by a frame. -/
structure ChannelFormat where
  name : String
deriving DecidableEq

/-- Modelled from the spec: a data-plane frame (section 3): channel format,
ordered channels, priority, optional groups and metadata. -/
structure Frame where
  channel_format : ChannelFormat
  channels : List Nat
  priority : Nat
  groups : Option (List (String × List Nat))
  metadata : Option (List (String × Value))

/-- An OS-level I/O failure, carried as its rendered message (the source
converts `std::io::Error` to a string via `From`). -/
structure IoError where
  msg : String
deriving DecidableEq

/-- Modelled from the spec: the handshake/control error taxonomy
(sections 4.1, 4.3 and 7). -/
inductive HandshakeError where
  | Timeout : HandshakeError
  | ProtocolViolation : HandshakeError
  | AuthenticationFailed : HandshakeError
  | IncompatibleCapabilities : HandshakeError
  | KeysMissing : HandshakeError
  | StaleSequence : HandshakeError
deriving DecidableEq

/-- Modelled from the spec: data-plane send failure, string-described
(section 7). -/
structure StreamError where
  msg : String
deriving DecidableEq

/-- Errors emitted by the high-level SDK client (source lines 24-29).  The
source variant names are `Io`, `Handshake`, `Stream`; the first is rendered
`IoErr` here. -/
inductive ClientError where
  | IoErr : String → ClientError
  | Handshake : HandshakeError → ClientError
  | Stream : StreamError → ClientError
deriving DecidableEq

/-- An OS UDP socket: an allocation identifier, the bound local address, the
peer it is connected to (if any), and its black-box send behaviour. -/
structure StdUdpSocket where
  id : Nat
  localAddr : SocketAddr
  connectedTo : Option SocketAddr
  sendFn : List Nat → Except String Nat

/-- Modelled from the spec: the message-oriented UDP transport used by the
control plane (Transport Wrappers, section 2); holds its own socket, the
remote address and a receive buffer size. -/
structure CborUdpTransport where
  socket : StdUdpSocket
  remote : SocketAddr
  bufSize : Nat

/-- Modelled from the spec: the timeout decorator enforcing a fixed
per-exchange deadline (Transport Wrappers, section 2; section 5). -/
structure TimeoutTransport (α : Type) where
  inner : α
  timeoutSecs : Nat

/-- Constructor mirroring `TimeoutTransport::new(inner, duration)`. -/
def TimeoutTransport.new {α : Type} (inner : α) (timeoutSecs : Nat) :
    TimeoutTransport α :=
  ⟨inner, timeoutSecs⟩

/-- Modelled from the spec: the decorator applies the same fixed deadline to
every message exchange; an exchange whose underlying operation takes longer
than the deadline fails with `Timeout`, otherwise the underlying result is
passed through (sections 4.1 and 5). -/
def TimeoutTransport.exchange {α β : Type} (t : TimeoutTransport α)
    (opTimeSecs : Nat) (result : Except HandshakeError β) :
    Except HandshakeError β :=
  if t.timeoutSecs < opTimeSecs then Except.error HandshakeError.Timeout
  else result

/-- `Arc`: a shared-ownership handle (sharing, not duplication, of the value
inside). -/
structure Arc (α : Type) where
  value : α

/-- `Mutex`: a mutual-exclusion lock around the value inside. -/
structure Mutex (α : Type) where
  value : α

/-- Modelled from the spec: the established view of a session captured on
handshake success: peer identity, negotiated capabilities and the session id
(section 3). -/
structure EstablishedView where
  device_identity : DeviceIdentity
  capabilities : CapabilitySet
  session_id : Nat

/-- Modelled from the spec: the session state machine
Connecting → Established → Closed (section 3). -/
inductive SessionState where
  | Connecting : SessionState
  | Established : EstablishedView → SessionKeys → SessionState
  | Closed : SessionState

/-- Modelled from the spec: a session holds its current state (section 4.2). -/
structure AlnpSession where
  state : SessionState

/-- Modelled from the spec: `established()` returns the established view only
while the session is Established (section 4.2). -/
def AlnpSession.established (s : AlnpSession) : Option EstablishedView :=
  match s.state with
  | SessionState.Established v _ => some v
  | _ => none

/-- Modelled from the spec: `keys()` returns the derived keys only while the
session is Established (section 4.2). -/
def AlnpSession.keys (s : AlnpSession) : Option SessionKeys :=
  match s.state with
  | SessionState.Established _ k => some k
  | _ => none

/-- Modelled from the spec: `close()` transitions the session to Closed; it is
idempotent and total (section 4.2). -/
def AlnpSession.close (_s : AlnpSession) : AlnpSession :=
  ⟨SessionState.Closed⟩

/-- Code of an operation verb, used by the modelled authentication tag. -/
def ControlOp.code : ControlOp → Nat
  | ControlOp.request => 0
  | ControlOp.response => 1
  | ControlOp.ping => 2

/-- Code of a payload value, used by the modelled authentication tag. -/
def Value.code : Value → Nat
  | Value.null => 0
  | Value.num n => 2 * n + 1
  | Value.str s => 2 * s.length + 2

/-- Modelled from the spec: the authentication tag over
(sequence, op, payload) under the session keys; the concrete MAC is an
out-of-scope crypto collaborator, represented by a keyed combination of the
envelope fields (section 4.3). -/
def authTag (k : SessionKeys) (seq : Nat) (op : ControlOp) (payload : Value) :
    Nat :=
  k.material * 1000003 + seq * 101 + op.code * 13 + payload.code

/-- Modelled from the spec: the control-envelope crypto state derived from
session keys; `none` represents construction before Established, the
defensive `KeysMissing` situation (section 4.3). -/
structure ControlCrypto where
  keys : Option SessionKeys

/-- Mirrors `ControlCrypto::new(keys)`: crypto built from actual session
keys. -/
def ControlCrypto.new (k : SessionKeys) : ControlCrypto :=
  ⟨some k⟩

/-- Modelled from the spec: an authenticated control envelope
`{sequence, op, payload, tag}` (section 3). -/
structure ControlEnvelope where
  sequence : Nat
  op : ControlOp
  payload : Value
  tag : Nat

/-- Modelled from the spec: the control channel holding the device UUID,
session id and envelope crypto (sections 2 and 4.3). -/
structure ControlClient where
  deviceUuid : Uuid
  sessionId : Nat
  crypto : ControlCrypto

/-- Mirrors `ControlClient::new(device_uuid, session_id, crypto)`. -/
def ControlClient.new (deviceUuid : Uuid) (sessionId : Nat)
    (crypto : ControlCrypto) : ControlClient :=
  ⟨deviceUuid, sessionId, crypto⟩

/-- Modelled from the spec: `envelope(sequence, op, payload)` fails with
`KeysMissing` when the channel was built without keys, and otherwise returns
the envelope authenticated under the session keys (section 4.3). -/
def ControlClient.envelope (c : ControlClient) (seq : Nat) (op : ControlOp)
    (payload : Value) : Except HandshakeError ControlEnvelope :=
  match c.crypto.keys with
  | none => Except.error HandshakeError.KeysMissing
  | some k => Except.ok ⟨seq, op, payload, authTag k seq op payload⟩

/-- Thin UDP transport for the ALPINE streaming layer (source lines 60-63):
a dedicated OS socket plus the peer address. -/
structure UdpFrameTransport where
  socket : StdUdpSocket
  peer : SocketAddr

/-- `UdpFrameTransport::send_frame` (source lines 74-79): delegate to the OS
socket send, prefixing any OS error description. -/
def UdpFrameTransport.send_frame (t : UdpFrameTransport) (bytes : List Nat) :
    Except String Unit :=
  match t.socket.sendFn bytes with
  | Except.ok _ => Except.ok ()
  | Except.error e => Except.error ("udp stream send: " ++ e)

/-- Modelled from the spec: the wire encoding of a frame is delegated to an
external serialization collaborator (section 1); represented here by a
concrete flattening of all frame fields. -/
def encodeFrame (f : Frame) : List Nat :=
  f.channel_format.name.length :: f.priority :: f.channels.length ::
    (f.channels ++
      [(f.groups.getD []).length, (f.metadata.getD []).length])

/-- Modelled from the spec: a stream couples an established-session view with
its dedicated frame transport (section 4.4). -/
structure AlnpStream where
  session : AlnpSession
  transport : UdpFrameTransport

/-- Mirrors `AlnpStream::new(session, transport)`. -/
def AlnpStream.new (session : AlnpSession) (transport : UdpFrameTransport) :
    AlnpStream :=
  ⟨session, transport⟩

/-- Modelled from the spec: `send` serializes the frame and writes it as a
single datagram via the frame transport, mapping the string-described
transport failure into `StreamError` (section 4.4). -/
def AlnpStream.send (st : AlnpStream) (channel_format : ChannelFormat)
    (channels : List Nat) (priority : Nat)
    (groups : Option (List (String × List Nat)))
    (metadata : Option (List (String × Value))) : Except StreamError Unit :=
  match st.transport.send_frame
      (encodeFrame ⟨channel_format, channels, priority, groups, metadata⟩) with
  | Except.ok _ => Except.ok ()
  | Except.error e => Except.error ⟨e⟩

/-- A spawned keepalive task: the shared, lock-guarded control transport it
sends on, its fixed interval in seconds, and the session id it announces
(source lines 117-124). -/
structure KeepaliveTask where
  transport : Arc (Mutex (TimeoutTransport CborUdpTransport))
  intervalSecs : Nat
  sessionId : Nat

/-- A join handle for a spawned background task (`tokio::task::JoinHandle`). -/
structure JoinHandle where
  task : KeepaliveTask

/-- The environment of one `connect` call: outcomes of the OS socket
operations, the handshake outcome as a function of the inputs and the
transport handed to the engine, the fresh UUID that `Uuid::new_v4` would
produce, and the external UUID parser. -/
structure ConnectEnv where
  bindControlOk : Bool
  bindControlErr : String
  handshake : DeviceIdentity → CapabilitySet → NodeCredentials →
    TimeoutTransport CborUdpTransport → Except HandshakeError AlnpSession
  bindStreamOk : Bool
  bindStreamErr : String
  connectStreamOk : Bool
  connectStreamErr : String
  sock0 : Nat
  controlSend : List Nat → Except String Nat
  streamSend : List Nat → Except String Nat
  freshUuid : Uuid
  parseUuid : String → Option Uuid

/-- Observable effects of one `connect` call: the background tasks spawned,
the tasks aborted (connect itself never aborts any), and the timeout-wrapped
transport handed to the handshake engine, when one was built. -/
structure ConnectTrace where
  spawned : List KeepaliveTask
  aborted : List KeepaliveTask
  handshakeTransport : Option (TimeoutTransport CborUdpTransport)

/-- The trace of a `connect` call that failed before reaching the
handshake. -/
def emptyTrace : ConnectTrace :=
  ⟨[], [], none⟩

/-- The control-plane socket-and-transport value produced by a successful
`CborUdpTransport::bind(local, remote, buf)` in the given environment. -/
def CborUdpTransport.mk0 (env : ConnectEnv) (localAddr remote : SocketAddr)
    (buf : Nat) : CborUdpTransport :=
  ⟨⟨env.sock0, localAddr, some remote, env.controlSend⟩, remote, buf⟩

/-- Modelled from the spec: `CborUdpTransport::bind` binds the control-plane
UDP socket for the message transport (Transport Wrappers, section 2); its OS
outcome is supplied by the environment. -/
def CborUdpTransport.bind (env : ConnectEnv) (localAddr remote : SocketAddr)
    (buf : Nat) : Except IoError CborUdpTransport :=
  if env.bindControlOk then Except.ok (CborUdpTransport.mk0 env localAddr remote buf)
  else Except.error ⟨env.bindControlErr⟩

/-- The timeout-wrapped control transport that `connect` builds on a
successful control bind: the bound transport under a fixed 3-second
deadline (source lines 104-105). -/
def controlTransport (env : ConnectEnv) (localAddr remote : SocketAddr) :
    TimeoutTransport CborUdpTransport :=
  TimeoutTransport.new (CborUdpTransport.mk0 env localAddr remote 2048) 3

/-- `UdpFrameTransport::new(local, peer)` (source lines 66-70): bind a fresh
dedicated OS socket to the local address, then connect it to the peer; either
OS step can fail, in source order.  The fresh socket receives the next
allocation id `env.sock0 + 1`. -/
def UdpFrameTransport.new (env : ConnectEnv) (localAddr peer : SocketAddr) :
    Except IoError UdpFrameTransport :=
  if env.bindStreamOk then
    if env.connectStreamOk then
      Except.ok ⟨⟨env.sock0 + 1, localAddr, some peer, env.streamSend⟩, peer⟩
    else Except.error ⟨env.connectStreamErr⟩
  else Except.error ⟨env.bindStreamErr⟩

/-- High-level controller client (source lines 84-90): session, shared
lock-guarded control transport, stream, control channel and the keepalive
join handle. -/
structure AlpineClient where
  session : AlnpSession
  transport : Arc (Mutex (TimeoutTransport CborUdpTransport))
  stream : AlnpStream
  control : ControlClient
  keepalive_handle : Option JoinHandle

/-- `AlpineClient::connect` (source lines 94-148), embedded step for step:
bind the control transport and wrap it with a 3-second timeout; run the
handshake engine over it; on success wrap the transport in `Arc (Mutex _)`,
read the established view (failing with an I/O-kind error when absent,
before anything is spawned) and spawn the keepalive task with a 5-second
interval; open the dedicated stream socket; build the stream; re-read the
established view; derive the device UUID from the peer identity with a
fresh-UUID fallback; read the session keys (failing with an I/O-kind error
when absent); build the control channel; assemble the client. -/
def AlpineClient.connect (env : ConnectEnv)
    (local_addr remote_addr : SocketAddr) (identity : DeviceIdentity)
    (capabilities : CapabilitySet) (credentials : NodeCredentials) :
    Except ClientError AlpineClient × ConnectTrace :=
  match CborUdpTransport.bind env local_addr remote_addr 2048 with
  | Except.error e => (Except.error (ClientError.IoErr e.msg), emptyTrace)
  | Except.ok inner =>
    let transport := TimeoutTransport.new inner 3
    match env.handshake identity capabilities credentials transport with
    | Except.error e =>
        (Except.error (ClientError.Handshake e), ⟨[], [], some transport⟩)
    | Except.ok session =>
      let shared := Arc.mk (Mutex.mk transport)
      match session.established with
      | none =>
          (Except.error (ClientError.IoErr ("session missing after handshake")),
            ⟨[], [], some transport⟩)
      | some view0 =>
        let task : KeepaliveTask := ⟨shared, 5, view0.session_id⟩
        let keepalive_handle : JoinHandle := ⟨task⟩
        let trace : ConnectTrace := ⟨[task], [], some transport⟩
        match UdpFrameTransport.new env local_addr remote_addr with
        | Except.error e => (Except.error (ClientError.IoErr e.msg), trace)
        | Except.ok stream_socket =>
          let stream := AlnpStream.new session stream_socket
          match session.established with
          | none =>
              (Except.error
                (ClientError.IoErr ("session missing after handshake")), trace)
          | some established =>
            let device_uuid :=
              (env.parseUuid established.device_identity.device_id).getD
                env.freshUuid
            match session.keys with
            | none =>
                (Except.error (ClientError.IoErr ("session keys missing")),
                  trace)
            | some ks =>
              let control :=
                ControlClient.new device_uuid established.session_id
                  (ControlCrypto.new ks)
              (Except.ok
                ⟨session, shared, stream, control, some keepalive_handle⟩,
                trace)

/-- `AlpineClient::send_frame` (source lines 151-162): delegate to the
stream, converting the stream error into the client error taxonomy. -/
def AlpineClient.send_frame (c : AlpineClient) (channel_format : ChannelFormat)
    (channels : List Nat) (priority : Nat)
    (groups : Option (List (String × List Nat)))
    (metadata : Option (List (String × Value))) : Except ClientError Unit :=
  match c.stream.send channel_format channels priority groups metadata with
  | Except.ok u => Except.ok u
  | Except.error e => Except.error (ClientError.Stream e)

/-- Observable effects of `AlpineClient::close`: the session after the call,
whether a keepalive handle was aborted, and whether the stream socket was
explicitly closed. -/
structure CloseResult where
  session : AlnpSession
  abortedKeepalive : Bool
  closedStreamSocket : Bool

/-- `AlpineClient::close` (source lines 165-170): close the session, abort
the keepalive handle when present; the stream socket is never explicitly
closed.  The operation is total: it consumes the client and cannot fail. -/
def AlpineClient.close (c : AlpineClient) : CloseResult :=
  ⟨c.session.close, c.keepalive_handle.isSome, false⟩

/-- `AlpineClient::control_envelope` (source lines 173-180): delegate to the
control channel. -/
def AlpineClient.control_envelope (c : AlpineClient) (seq : Nat)
    (op : ControlOp) (payload : Value) : Except HandshakeError ControlEnvelope :=
  c.control.envelope seq op payload

/-- Concrete local address for witnesses. -/
def exLocal : SocketAddr := ⟨1, 40001⟩

/-- Concrete remote address for witnesses. -/
def exRemote : SocketAddr := ⟨2, 40002⟩

/-- Concrete caller identity for witnesses. -/
def exIdentity : DeviceIdentity := ⟨"controller-1", "controller"⟩

/-- Concrete capability set for witnesses. -/
def exCaps : CapabilitySet := ⟨["video", "telemetry"]⟩

/-- Concrete credentials for witnesses. -/
def exCreds : NodeCredentials := ⟨5⟩

/-- Concrete established view for witnesses: the peer declares a device id
that does not parse as a UUID. -/
def exView : EstablishedView := ⟨⟨"lamp-7", "lamp"⟩, ⟨["video"]⟩, 7⟩

/-- Concrete derived session keys for witnesses. -/
def exKeys : SessionKeys := ⟨42⟩

/-- Concrete established session for witnesses. -/
def exSession : AlnpSession := ⟨SessionState.Established exView exKeys⟩

/-- Environment in which every OS step succeeds and the handshake
establishes `exSession`. -/
def exEnvOk : ConnectEnv :=
  ⟨true, "bc", fun _ _ _ _ => Except.ok exSession, true, "bs", true, "cs", 0,
    fun _ => Except.ok 0, fun _ => Except.ok 0, ⟨99⟩, fun _ => none⟩

/-- Environment in which the handshake fails with `AuthenticationFailed`. -/
def exEnvHsFail : ConnectEnv :=
  ⟨true, "bc",
    fun _ _ _ _ => Except.error HandshakeError.AuthenticationFailed, true,
    "bs", true, "cs", 0, fun _ => Except.ok 0, fun _ => Except.ok 0, ⟨99⟩,
    fun _ => none⟩

/-- Environment in which the handshake succeeds but binding the dedicated
stream socket fails. -/
def exEnvStreamFail : ConnectEnv :=
  ⟨true, "bc", fun _ _ _ _ => Except.ok exSession, false, "bs", true, "cs", 0,
    fun _ => Except.ok 0, fun _ => Except.ok 0, ⟨99⟩, fun _ => none⟩

/-- Environment in which the handshake returns a session that never reached
Established. -/
def exEnvNoSession : ConnectEnv :=
  ⟨true, "bc", fun _ _ _ _ => Except.ok ⟨SessionState.Connecting⟩, true, "bs",
    true, "cs", 0, fun _ => Except.ok 0, fun _ => Except.ok 0, ⟨99⟩,
    fun _ => none⟩

/-- The client value produced by `connect` in `exEnvOk`. -/
def exClient : AlpineClient :=
  ⟨exSession,
    Arc.mk (Mutex.mk (controlTransport exEnvOk exLocal exRemote)),
    ⟨exSession, ⟨⟨1, exLocal, some exRemote, exEnvOk.streamSend⟩, exRemote⟩⟩,
    ControlClient.new ⟨99⟩ exView.session_id (ControlCrypto.new exKeys),
    some ⟨⟨Arc.mk (Mutex.mk (controlTransport exEnvOk exLocal exRemote)), 5,
      exView.session_id⟩⟩⟩

/-- The trace produced by `connect` in `exEnvOk`. -/
def exTrace : ConnectTrace :=
  ⟨[⟨Arc.mk (Mutex.mk (controlTransport exEnvOk exLocal exRemote)), 5,
      exView.session_id⟩], [],
    some (controlTransport exEnvOk exLocal exRemote)⟩

theorem connect_ok_spec
    (env : ConnectEnv) (local_addr remote_addr : SocketAddr)
    (identity : DeviceIdentity) (capabilities : CapabilitySet)
    (credentials : NodeCredentials) (c : AlpineClient) (tr : ConnectTrace)
    (h : AlpineClient.connect env local_addr remote_addr identity capabilities
      credentials = (Except.ok c, tr)) :
    ∃ view ks,
      c.session.established = some view ∧
      c.session.keys = some ks ∧
      c.transport = Arc.mk (Mutex.mk (controlTransport env local_addr remote_addr)) ∧
      c.stream.session = c.session ∧
      c.stream.transport =
        ⟨⟨env.sock0 + 1, local_addr, some remote_addr, env.streamSend⟩, remote_addr⟩ ∧
      c.control =
        ControlClient.new
          ((env.parseUuid view.device_identity.device_id).getD env.freshUuid)
          view.session_id (ControlCrypto.new ks) ∧
      c.keepalive_handle = some ⟨⟨c.transport, 5, view.session_id⟩⟩ ∧
      tr.spawned = [⟨c.transport, 5, view.session_id⟩] ∧
      tr.aborted = [] ∧
      tr.handshakeTransport = some (controlTransport env local_addr remote_addr) := by
  unfold AlpineClient.connect CborUdpTransport.bind at h
  cases hbc : env.bindControlOk with
  | false => rw [hbc] at h; simp at h
  | true =>
    rw [hbc] at h
    simp only [if_true] at h
    rcases hhs : env.handshake identity capabilities credentials
        (TimeoutTransport.new (CborUdpTransport.mk0 env local_addr remote_addr 2048) 3) with e | s
    · rw [hhs] at h
      simp at h
    · rw [hhs] at h
      simp only at h
      rcases hest : s.established with _ | view
      · rw [hest] at h
        simp at h
      · rw [hest] at h
        simp only at h
        unfold UdpFrameTransport.new at h
        cases hbs : env.bindStreamOk with
        | false => rw [hbs] at h; simp at h
        | true =>
          rw [hbs] at h
          cases hcs : env.connectStreamOk with
          | false => rw [hcs] at h; simp at h
          | true =>
            rw [hcs] at h
            simp only [if_true] at h
            rcases hks : s.keys with _ | ks
            · rw [hks] at h
              simp at h
            · rw [hks] at h
              simp only [Prod.mk.injEq, Except.ok.injEq] at h
              obtain ⟨hc, htr⟩ := h
              subst hc
              subst htr
              exact ⟨view, ks, hest, hks, rfl, rfl, rfl, rfl, rfl, rfl, rfl, rfl⟩

theorem connect_handshake_error
    (env : ConnectEnv) (local_addr remote_addr : SocketAddr)
    (identity : DeviceIdentity) (capabilities : CapabilitySet)
    (credentials : NodeCredentials) (e : HandshakeError)
    (hb : env.bindControlOk = true)
    (hh : env.handshake identity capabilities credentials
      (controlTransport env local_addr remote_addr) = Except.error e) :
    AlpineClient.connect env local_addr remote_addr identity capabilities
      credentials =
      (Except.error (ClientError.Handshake e),
        ⟨[], [], some (controlTransport env local_addr remote_addr)⟩) := by
  simp only [controlTransport] at hh ⊢
  unfold AlpineClient.connect CborUdpTransport.bind
  rw [hb]
  simp only [if_true, hh]

theorem connect_handshakeTransport_eq
    (env : ConnectEnv) (local_addr remote_addr : SocketAddr)
    (identity : DeviceIdentity) (capabilities : CapabilitySet)
    (credentials : NodeCredentials) (t : TimeoutTransport CborUdpTransport)
    (ht : (AlpineClient.connect env local_addr remote_addr identity capabilities
      credentials).2.handshakeTransport = some t) :
    env.bindControlOk = true ∧ t = controlTransport env local_addr remote_addr := by
  cases hbc : env.bindControlOk with
  | false =>
    exfalso
    unfold AlpineClient.connect CborUdpTransport.bind at ht
    rw [hbc] at ht
    simp [emptyTrace] at ht
  | true =>
    refine ⟨rfl, ?_⟩
    unfold AlpineClient.connect CborUdpTransport.bind UdpFrameTransport.new at ht
    rw [hbc] at ht
    simp only [if_true] at ht
    repeat' split at ht
    all_goals simp_all [controlTransport]

/-- C1: if the handshake stage of `connect` fails with a `HandshakeError`,
`connect` returns the corresponding `Handshake` client error, no client value
is constructed, and no keepalive task has been spawned (empty spawn trace). -/
theorem handshake_failure_aborts_connect
    (env : ConnectEnv) (local_addr remote_addr : SocketAddr)
    (identity : DeviceIdentity) (capabilities : CapabilitySet)
    (credentials : NodeCredentials) (e : HandshakeError)
    (hb : env.bindControlOk = true)
    (hh : env.handshake identity capabilities credentials
      (controlTransport env local_addr remote_addr) = Except.error e) :
    AlpineClient.connect env local_addr remote_addr identity capabilities
      credentials =
      (Except.error (ClientError.Handshake e),
        ⟨[], [], some (controlTransport env local_addr remote_addr)⟩) :=
  connect_handshake_error env local_addr remote_addr identity capabilities
    credentials e hb hh

/-- Witness for C1: in the concrete environment whose handshake fails with
`AuthenticationFailed`, `connect` returns that handshake error with an empty
spawn trace. -/
theorem handshake_failure_aborts_connect_witness :
    exEnvHsFail.bindControlOk = true ∧
    exEnvHsFail.handshake exIdentity exCaps exCreds
      (controlTransport exEnvHsFail exLocal exRemote) =
      Except.error HandshakeError.AuthenticationFailed ∧
    AlpineClient.connect exEnvHsFail exLocal exRemote exIdentity exCaps
      exCreds =
      (Except.error (ClientError.Handshake HandshakeError.AuthenticationFailed),
        ⟨[], [], some (controlTransport exEnvHsFail exLocal exRemote)⟩) :=
  ⟨rfl, rfl,
    handshake_failure_aborts_connect exEnvHsFail exLocal exRemote exIdentity
      exCaps exCreds HandshakeError.AuthenticationFailed rfl rfl⟩

/-- C2: for every client produced by `connect`, `close` is total (it returns a
plain `CloseResult`, it cannot fail), transitions the session to Closed via
the session close operation, aborts the keepalive task, and does not close
the stream socket. -/
theorem close_never_fails
    (env : ConnectEnv) (local_addr remote_addr : SocketAddr)
    (identity : DeviceIdentity) (capabilities : CapabilitySet)
    (credentials : NodeCredentials) (c : AlpineClient) (tr : ConnectTrace)
    (h : AlpineClient.connect env local_addr remote_addr identity capabilities
      credentials = (Except.ok c, tr)) :
    (AlpineClient.close c).session = AlnpSession.close c.session ∧
    (AlpineClient.close c).session.state = SessionState.Closed ∧
    (AlpineClient.close c).abortedKeepalive = true ∧
    (AlpineClient.close c).closedStreamSocket = false := by
  obtain ⟨view, ks, hest, hks, htr, hss, hstr, hctl, hkh, hsp, hab, hht⟩ :=
    connect_ok_spec env local_addr remote_addr identity capabilities
      credentials c tr h
  refine ⟨rfl, rfl, ?_, rfl⟩
  unfold AlpineClient.close
  rw [hkh]
  rfl

/-- Witness for C2: the concrete successful connect yields a client whose
close is clean. -/
theorem close_never_fails_witness :
    AlpineClient.connect exEnvOk exLocal exRemote exIdentity exCaps exCreds =
      (Except.ok exClient, exTrace) ∧
    ((AlpineClient.close exClient).session = AlnpSession.close exClient.session ∧
      (AlpineClient.close exClient).session.state = SessionState.Closed ∧
      (AlpineClient.close exClient).abortedKeepalive = true ∧
      (AlpineClient.close exClient).closedStreamSocket = false) :=
  ⟨rfl,
    close_never_fails exEnvOk exLocal exRemote exIdentity exCaps exCreds
      exClient exTrace rfl⟩

/-- C3: for every successful connect, the control-channel device UUID is the
parsed peer device id when the parse succeeds, and the freshly generated UUID
when it fails. -/
theorem device_uuid_fallback_policy
    (env : ConnectEnv) (local_addr remote_addr : SocketAddr)
    (identity : DeviceIdentity) (capabilities : CapabilitySet)
    (credentials : NodeCredentials) (c : AlpineClient) (tr : ConnectTrace)
    (h : AlpineClient.connect env local_addr remote_addr identity capabilities
      credentials = (Except.ok c, tr)) :
    ∃ view, c.session.established = some view ∧
      (∀ u, env.parseUuid view.device_identity.device_id = some u →
        c.control.deviceUuid = u) ∧
      (env.parseUuid view.device_identity.device_id = none →
        c.control.deviceUuid = env.freshUuid) := by
  obtain ⟨view, ks, hest, hks, htr, hss, hstr, hctl, hkh, hsp, hab, hht⟩ :=
    connect_ok_spec env local_addr remote_addr identity capabilities
      credentials c tr h
  refine ⟨view, hest, ?_, ?_⟩
  · intro u hu
    rw [hctl]
    simp [ControlClient.new, hu]
  · intro hu
    rw [hctl]
    simp [ControlClient.new, hu]

/-- Witness for C3: in the concrete environment the peer device id does not
parse, so the device UUID is the fresh fallback. -/
theorem device_uuid_fallback_policy_witness :
    AlpineClient.connect exEnvOk exLocal exRemote exIdentity exCaps exCreds =
      (Except.ok exClient, exTrace) ∧
    (∃ view, exClient.session.established = some view ∧
      (∀ u, exEnvOk.parseUuid view.device_identity.device_id = some u →
        exClient.control.deviceUuid = u) ∧
      (exEnvOk.parseUuid view.device_identity.device_id = none →
        exClient.control.deviceUuid = exEnvOk.freshUuid)) :=
  ⟨rfl,
    device_uuid_fallback_policy exEnvOk exLocal exRemote exIdentity exCaps
      exCreds exClient exTrace rfl⟩

/-- C4: the message transport handed to the handshake engine by `connect` is
the control transport wrapped with a fixed 3-second deadline; the decorator
fails any exchange whose underlying operation exceeds that deadline with
`Timeout`, and a handshake `Timeout` fails the whole `connect` call. -/
theorem handshake_transport_timeout_wrapped
    (env : ConnectEnv) (local_addr remote_addr : SocketAddr)
    (identity : DeviceIdentity) (capabilities : CapabilitySet)
    (credentials : NodeCredentials) (t : TimeoutTransport CborUdpTransport)
    (ht : (AlpineClient.connect env local_addr remote_addr identity
      capabilities credentials).2.handshakeTransport = some t) :
    t = controlTransport env local_addr remote_addr ∧
    t.timeoutSecs = 3 ∧
    (∀ (opTimeSecs : Nat) (res : Except HandshakeError Nat), 3 < opTimeSecs →
      t.exchange opTimeSecs res = Except.error HandshakeError.Timeout) ∧
    (env.handshake identity capabilities credentials t =
        Except.error HandshakeError.Timeout →
      (AlpineClient.connect env local_addr remote_addr identity capabilities
        credentials).1 =
        Except.error (ClientError.Handshake HandshakeError.Timeout)) := by
  obtain ⟨hb, htc⟩ := connect_handshakeTransport_eq env local_addr remote_addr
    identity capabilities credentials t ht
  subst htc
  refine ⟨rfl, rfl, ?_, ?_⟩
  · intro opTimeSecs res hlt
    unfold TimeoutTransport.exchange
    simp [controlTransport, TimeoutTransport.new, hlt]
  · intro hto
    rw [connect_handshake_error env local_addr remote_addr identity
      capabilities credentials HandshakeError.Timeout hb hto]

/-- Witness for C4: in the concrete successful environment the recorded
handshake transport is the 3-second-wrapped control transport. -/
theorem handshake_transport_timeout_wrapped_witness :
    (AlpineClient.connect exEnvOk exLocal exRemote exIdentity exCaps
      exCreds).2.handshakeTransport =
      some (controlTransport exEnvOk exLocal exRemote) ∧
    (controlTransport exEnvOk exLocal exRemote =
        controlTransport exEnvOk exLocal exRemote ∧
      (controlTransport exEnvOk exLocal exRemote).timeoutSecs = 3 ∧
      (∀ (opTimeSecs : Nat) (res : Except HandshakeError Nat), 3 < opTimeSecs →
        (controlTransport exEnvOk exLocal exRemote).exchange opTimeSecs res =
          Except.error HandshakeError.Timeout) ∧
      (exEnvOk.handshake exIdentity exCaps exCreds
          (controlTransport exEnvOk exLocal exRemote) =
          Except.error HandshakeError.Timeout →
        (AlpineClient.connect exEnvOk exLocal exRemote exIdentity exCaps
          exCreds).1 =
          Except.error (ClientError.Handshake HandshakeError.Timeout))) :=
  ⟨rfl,
    handshake_transport_timeout_wrapped exEnvOk exLocal exRemote exIdentity
      exCaps exCreds (controlTransport exEnvOk exLocal exRemote) rfl⟩

/-- C5: every successful connect spawns exactly one keepalive task, with a
fixed 5-second interval, the established session id, and the same
timeout-wrapped control transport that ran the handshake, shared under an
`Arc (Mutex _)` handle that is also the client transport. -/
theorem single_keepalive_spawned
    (env : ConnectEnv) (local_addr remote_addr : SocketAddr)
    (identity : DeviceIdentity) (capabilities : CapabilitySet)
    (credentials : NodeCredentials) (c : AlpineClient) (tr : ConnectTrace)
    (h : AlpineClient.connect env local_addr remote_addr identity capabilities
      credentials = (Except.ok c, tr)) :
    ∃ view, c.session.established = some view ∧
      tr.spawned =
        [⟨Arc.mk (Mutex.mk (controlTransport env local_addr remote_addr)), 5,
          view.session_id⟩] ∧
      c.transport =
        Arc.mk (Mutex.mk (controlTransport env local_addr remote_addr)) ∧
      tr.handshakeTransport =
        some (controlTransport env local_addr remote_addr) := by
  obtain ⟨view, ks, hest, hks, htr, hss, hstr, hctl, hkh, hsp, hab, hht⟩ :=
    connect_ok_spec env local_addr remote_addr identity capabilities
      credentials c tr h
  refine ⟨view, hest, ?_, htr, hht⟩
  rw [hsp, htr]

/-- Witness for C5: the concrete successful connect spawns exactly the one
expected keepalive task. -/
theorem single_keepalive_spawned_witness :
    AlpineClient.connect exEnvOk exLocal exRemote exIdentity exCaps exCreds =
      (Except.ok exClient, exTrace) ∧
    (∃ view, exClient.session.established = some view ∧
      exTrace.spawned =
        [⟨Arc.mk (Mutex.mk (controlTransport exEnvOk exLocal exRemote)), 5,
          view.session_id⟩] ∧
      exClient.transport =
        Arc.mk (Mutex.mk (controlTransport exEnvOk exLocal exRemote)) ∧
      exTrace.handshakeTransport =
        some (controlTransport exEnvOk exLocal exRemote)) :=
  ⟨rfl,
    single_keepalive_spawned exEnvOk exLocal exRemote exIdentity exCaps
      exCreds exClient exTrace rfl⟩

/-- C6: `send_frame` is exactly the stream send with its error mapped into
the client taxonomy, and `control_envelope` is exactly the control-channel
envelope: pure delegation on every argument tuple. -/
theorem send_frame_and_envelope_delegate
    (c : AlpineClient) (channel_format : ChannelFormat) (channels : List Nat)
    (priority : Nat) (groups : Option (List (String × List Nat)))
    (metadata : Option (List (String × Value))) (seq : Nat) (op : ControlOp)
    (payload : Value) :
    c.send_frame channel_format channels priority groups metadata =
      Except.mapError ClientError.Stream
        (c.stream.send channel_format channels priority groups metadata) ∧
    c.control_envelope seq op payload = c.control.envelope seq op payload := by
  constructor
  · unfold AlpineClient.send_frame
    rcases hx : c.stream.send channel_format channels priority groups
        metadata with e | u
    · rfl
    · rfl
  · rfl

/-- C7: every successful connect gives the stream its own dedicated datagram
socket, freshly bound to the local address and connected to the remote
address, and that socket is distinct from the control-plane socket inside the
shared transport. -/
theorem stream_socket_dedicated
    (env : ConnectEnv) (local_addr remote_addr : SocketAddr)
    (identity : DeviceIdentity) (capabilities : CapabilitySet)
    (credentials : NodeCredentials) (c : AlpineClient) (tr : ConnectTrace)
    (h : AlpineClient.connect env local_addr remote_addr identity capabilities
      credentials = (Except.ok c, tr)) :
    c.stream.transport.socket.localAddr = local_addr ∧
    c.stream.transport.socket.connectedTo = some remote_addr ∧
    c.stream.transport.peer = remote_addr ∧
    c.stream.transport.socket.id ≠
      c.transport.value.value.inner.socket.id := by
  obtain ⟨view, ks, hest, hks, htr, hss, hstr, hctl, hkh, hsp, hab, hht⟩ :=
    connect_ok_spec env local_addr remote_addr identity capabilities
      credentials c tr h
  refine ⟨by rw [hstr], by rw [hstr], by rw [hstr], ?_⟩
  rw [hstr, htr]
  simp [controlTransport, CborUdpTransport.mk0, TimeoutTransport.new]

/-- Witness for C7: the concrete successful connect has stream socket id 1
and control socket id 0. -/
theorem stream_socket_dedicated_witness :
    AlpineClient.connect exEnvOk exLocal exRemote exIdentity exCaps exCreds =
      (Except.ok exClient, exTrace) ∧
    (exClient.stream.transport.socket.localAddr = exLocal ∧
      exClient.stream.transport.socket.connectedTo = some exRemote ∧
      exClient.stream.transport.peer = exRemote ∧
      exClient.stream.transport.socket.id ≠
        exClient.transport.value.value.inner.socket.id) :=
  ⟨rfl,
    stream_socket_dedicated exEnvOk exLocal exRemote exIdentity exCaps
      exCreds exClient exTrace rfl⟩

/-- C8: every client returned by `connect` has a control channel built from
keys the session actually exposes in the Established state, so its envelope
construction always succeeds with the keyed tag and the defensive
`KeysMissing` path is unreachable. -/
theorem control_channel_keys_present
    (env : ConnectEnv) (local_addr remote_addr : SocketAddr)
    (identity : DeviceIdentity) (capabilities : CapabilitySet)
    (credentials : NodeCredentials) (c : AlpineClient) (tr : ConnectTrace)
    (h : AlpineClient.connect env local_addr remote_addr identity capabilities
      credentials = (Except.ok c, tr)) :
    ∃ view ks, c.session.established = some view ∧
      c.session.keys = some ks ∧
      c.control.crypto.keys = some ks ∧
      (∀ seq op payload, c.control.envelope seq op payload =
        Except.ok ⟨seq, op, payload, authTag ks seq op payload⟩) ∧
      (∀ seq op payload, c.control.envelope seq op payload ≠
        Except.error HandshakeError.KeysMissing) := by
  obtain ⟨view, ks, hest, hks, htr, hss, hstr, hctl, hkh, hsp, hab, hht⟩ :=
    connect_ok_spec env local_addr remote_addr identity capabilities
      credentials c tr h
  refine ⟨view, ks, hest, hks, ?_, ?_, ?_⟩
  · rw [hctl]
    rfl
  · intro seq op payload
    rw [hctl]
    rfl
  · intro seq op payload hcontra
    rw [hctl] at hcontra
    simp [ControlClient.envelope, ControlClient.new, ControlCrypto.new]
      at hcontra

/-- Witness for C8: the concrete client envelope construction succeeds on a
sample input. -/
theorem control_channel_keys_present_witness :
    AlpineClient.connect exEnvOk exLocal exRemote exIdentity exCaps exCreds =
      (Except.ok exClient, exTrace) ∧
    (∃ view ks, exClient.session.established = some view ∧
      exClient.session.keys = some ks ∧
      exClient.control.crypto.keys = some ks ∧
      (∀ seq op payload, exClient.control.envelope seq op payload =
        Except.ok ⟨seq, op, payload, authTag ks seq op payload⟩) ∧
      (∀ seq op payload, exClient.control.envelope seq op payload ≠
        Except.error HandshakeError.KeysMissing)) :=
  ⟨rfl,
    control_channel_keys_present exEnvOk exLocal exRemote exIdentity exCaps
      exCreds exClient exTrace rfl⟩

/-- C9: when the handshake succeeds and the keepalive task has been spawned
but the dedicated stream socket fails to bind or connect, `connect` returns
an I/O-kind error while the trace still holds the one spawned keepalive task
and records no abort: the spawned task is left running. -/
theorem stream_socket_failure_leaks_keepalive
    (env : ConnectEnv) (local_addr remote_addr : SocketAddr)
    (identity : DeviceIdentity) (capabilities : CapabilitySet)
    (credentials : NodeCredentials) (s : AlnpSession) (view : EstablishedView)
    (hb : env.bindControlOk = true)
    (hh : env.handshake identity capabilities credentials
      (controlTransport env local_addr remote_addr) = Except.ok s)
    (hest : s.established = some view)
    (hfail : env.bindStreamOk = false ∨ env.connectStreamOk = false) :
    (∃ m, (AlpineClient.connect env local_addr remote_addr identity
      capabilities credentials).1 = Except.error (ClientError.IoErr m)) ∧
    (AlpineClient.connect env local_addr remote_addr identity capabilities
      credentials).2.spawned =
      [⟨Arc.mk (Mutex.mk (controlTransport env local_addr remote_addr)), 5,
        view.session_id⟩] ∧
    (AlpineClient.connect env local_addr remote_addr identity capabilities
      credentials).2.aborted = [] := by
  simp only [controlTransport] at hh
  cases hbs : env.bindStreamOk with
  | false =>
    have hconn : AlpineClient.connect env local_addr remote_addr identity
        capabilities credentials =
        (Except.error (ClientError.IoErr env.bindStreamErr),
          ⟨[⟨Arc.mk (Mutex.mk (controlTransport env local_addr remote_addr)),
            5, view.session_id⟩], [],
            some (controlTransport env local_addr remote_addr)⟩) := by
      simp only [controlTransport]
      unfold AlpineClient.connect CborUdpTransport.bind UdpFrameTransport.new
      rw [hb]
      simp only [if_true, hh, hest, hbs, Bool.false_eq_true, if_false]
    rw [hconn]
    exact ⟨⟨env.bindStreamErr, rfl⟩, rfl, rfl⟩
  | true =>
    cases hcs : env.connectStreamOk with
    | false =>
      have hconn : AlpineClient.connect env local_addr remote_addr identity
          capabilities credentials =
          (Except.error (ClientError.IoErr env.connectStreamErr),
            ⟨[⟨Arc.mk (Mutex.mk (controlTransport env local_addr remote_addr)),
              5, view.session_id⟩], [],
              some (controlTransport env local_addr remote_addr)⟩) := by
        simp only [controlTransport]
        unfold AlpineClient.connect CborUdpTransport.bind UdpFrameTransport.new
        rw [hb]
        simp only [if_true, hh, hest, hbs, hcs, Bool.false_eq_true, if_false]
      rw [hconn]
      exact ⟨⟨env.connectStreamErr, rfl⟩, rfl, rfl⟩
    | true =>
      exfalso
      rcases hfail with h1 | h1
      · rw [hbs] at h1
        exact Bool.noConfusion h1
      · rw [hcs] at h1
        exact Bool.noConfusion h1

/-- Witness for C9: in the concrete environment whose stream bind fails,
connect fails with an I/O-kind error while the keepalive task stays in the
spawn trace. -/
theorem stream_socket_failure_leaks_keepalive_witness :
    exEnvStreamFail.bindControlOk = true ∧
    exEnvStreamFail.handshake exIdentity exCaps exCreds
      (controlTransport exEnvStreamFail exLocal exRemote) =
      Except.ok exSession ∧
    exSession.established = some exView ∧
    (exEnvStreamFail.bindStreamOk = false ∨
      exEnvStreamFail.connectStreamOk = false) ∧
    ((∃ m, (AlpineClient.connect exEnvStreamFail exLocal exRemote exIdentity
      exCaps exCreds).1 = Except.error (ClientError.IoErr m)) ∧
    (AlpineClient.connect exEnvStreamFail exLocal exRemote exIdentity exCaps
      exCreds).2.spawned =
      [⟨Arc.mk (Mutex.mk (controlTransport exEnvStreamFail exLocal exRemote)),
        5, exView.session_id⟩] ∧
    (AlpineClient.connect exEnvStreamFail exLocal exRemote exIdentity exCaps
      exCreds).2.aborted = []) :=
  ⟨rfl, rfl, rfl, Or.inl rfl,
    stream_socket_failure_leaks_keepalive exEnvStreamFail exLocal exRemote
      exIdentity exCaps exCreds exSession exView rfl rfl rfl (Or.inl rfl)⟩

/-- C10: when the handshake engine reports success but the session exposes no
established view or no keys, `connect` fails with the I/O-kind client error,
never with a `Handshake` variant. -/
theorem missing_session_reports_io_error
    (env : ConnectEnv) (local_addr remote_addr : SocketAddr)
    (identity : DeviceIdentity) (capabilities : CapabilitySet)
    (credentials : NodeCredentials) (s : AlnpSession)
    (hb : env.bindControlOk = true)
    (hh : env.handshake identity capabilities credentials
      (controlTransport env local_addr remote_addr) = Except.ok s)
    (hmiss : s.established = none ∨ s.keys = none) :
    (∃ m, (AlpineClient.connect env local_addr remote_addr identity
      capabilities credentials).1 = Except.error (ClientError.IoErr m)) ∧
    (∀ e, (AlpineClient.connect env local_addr remote_addr identity
      capabilities credentials).1 ≠
      Except.error (ClientError.Handshake e)) := by
  have hest : s.established = none := by
    rcases hmiss with h1 | h1
    · exact h1
    · rcases s with ⟨st⟩
      cases st <;> simp_all [AlnpSession.keys, AlnpSession.established]
  have hconn : (AlpineClient.connect env local_addr remote_addr identity
      capabilities credentials).1 =
      Except.error (ClientError.IoErr ("session missing after handshake")) := by
    simp only [controlTransport] at hh
    unfold AlpineClient.connect CborUdpTransport.bind
    rw [hb]
    simp only [if_true, hh, hest]
  rw [hconn]
  refine ⟨⟨_, rfl⟩, ?_⟩
  intro e hcontra
  simp at hcontra

/-- Witness for C10: in the concrete environment whose handshake hands back a
still-Connecting session, connect fails with the I/O-kind error. -/
theorem missing_session_reports_io_error_witness :
    exEnvNoSession.bindControlOk = true ∧
    exEnvNoSession.handshake exIdentity exCaps exCreds
      (controlTransport exEnvNoSession exLocal exRemote) =
      Except.ok ⟨SessionState.Connecting⟩ ∧
    ((AlnpSession.established ⟨SessionState.Connecting⟩ = none ∨
      AlnpSession.keys ⟨SessionState.Connecting⟩ = none)) ∧
    ((∃ m, (AlpineClient.connect exEnvNoSession exLocal exRemote exIdentity
      exCaps exCreds).1 = Except.error (ClientError.IoErr m)) ∧
    (∀ e, (AlpineClient.connect exEnvNoSession exLocal exRemote exIdentity
      exCaps exCreds).1 ≠
      Except.error (ClientError.Handshake e))) :=
  ⟨rfl, rfl, Or.inl rfl,
    missing_session_reports_io_error exEnvNoSession exLocal exRemote
      exIdentity exCaps exCreds ⟨SessionState.Connecting⟩ rfl rfl
      (Or.inl rfl)⟩
